import Mathlib

/-!
Verification of the backstop_history timeline-assembly engine.

This file is a shallow embedding of `backstop_history/BackstopHistory.py`
and `backstop_history/LTCTI_RTS.py`.  Backstop commands are Python dicts;
they are embedded as the structure `BSCmd`.  Times are mission-elapsed
seconds stored as Python floats in the source; they are embedded as `Int`
(integer seconds: every arithmetic operation performed on them within the
scope of the claims is addition of integral constants and comparison, on
which Python float arithmetic is exact).  File reads and the external `Chandra.Time`
date parser are collaborators outside this repository: the lists they
produce (backstop command lists, parsed event lines, expanded RTS runs)
are taken as explicit inputs, and the seconds-to-date-string conversion
is modelled by an injective stand-in `secsToDate`.  A method that raises
an uncaught Python exception on a code path is embedded as a function
returning `none` / `Except.error` on that path.
-/

/-- Value of one entry of a backstop command's `params` dict: the source
stores ints, floats and strings there. -/
inductive PVal where
  | i (n : Int)
  | q (x : Rat)
  | s (v : String)
deriving Repr, DecidableEq

/-- Embedding of one backstop command dict (the SKA.Parse format used
throughout `BackstopHistory.py`): fields `cmd`, `date`, `msid`, `params`,
`paramstr`, `scs`, `step`, `time`, `tlmsid`, `vcdu`. -/
structure BSCmd where
  cmd : String
  date : String
  msid : Option String
  params : List (String × PVal)
  paramstr : String
  scs : Nat
  step : Nat
  time : Int
  tlmsid : Option String
  vcdu : Nat
deriving Repr, DecidableEq

/-- Ordering of backstop commands used by every `sorted(..., key=lambda k: k['time'])`
call in the source: compare the `time` field. -/
def timeLEr (a b : BSCmd) : Prop := a.time ≤ b.time

instance : DecidableRel timeLEr := fun a b => inferInstanceAs (Decidable (a.time ≤ b.time))

instance : IsTotal BSCmd timeLEr := ⟨fun a b => le_total a.time b.time⟩

instance : IsTrans BSCmd timeLEr := ⟨fun _ _ _ h h2 => le_trans h h2⟩

/-- Embedding of Python's stable `sorted(list, key=lambda k: k['time'])`:
a stable sort by the `time` field. -/
def sortByTime (l : List BSCmd) : List BSCmd := List.insertionSort timeLEr l

/-- Decimal digits of a natural number (fuel-based helper for `natStr`). -/
def natDigitsAux : Nat → Nat → List Char
  | 0, _ => []
  | fuel+1, n => if n = 0 then [] else natDigitsAux fuel (n / 10) ++ [Char.ofNat (48 + n % 10)]

/-- Decimal rendering of a natural number. -/
def natStr (n : Nat) : String := if n = 0 then "0" else String.mk (natDigitsAux n n)

/-- Stand-in for the external `Chandra.Time.DateTime(secs).date` conversion
(an out-of-scope collaborator): an injective rendering of the time value. -/
def secsToDate (t : Int) : String :=
  (if t < 0 then "-" else "") ++ natStr t.natAbs

/-- Embedding of `BackstopHistory.Trim_bs_cmds_After_Date` (lines 1220-1247):
keep only the commands whose `time` is strictly before the cutoff. -/
def Trim_bs_cmds_After_Date (trim_time : Int) (cmd_list : List BSCmd) : List BSCmd :=
  cmd_list.filter (fun cmd => decide (cmd.time < trim_time))

/-- Embedding of `BackstopHistory.Trim_bs_cmds_Before_Date` (lines 1261-1288):
keep only the commands whose `time` is at or after the cutoff. -/
def Trim_bs_cmds_Before_Date (trim_time : Int) (cmd_list : List BSCmd) : List BSCmd :=
  cmd_list.filter (fun cmd => decide (trim_time ≤ cmd.time))

/-- Plain ACIS packet command at a given time, used as concrete test data. -/
def cAt (t : Int) : BSCmd :=
  { cmd := "ACISPKT", date := "", msid := none, params := [], paramstr := "",
    scs := 130, step := 1, time := t, tlmsid := none, vcdu := 0 }

/-- C2: for every cutoff `c` and command list `L`, the two trims partition `L`:
their concatenation is a permutation of `L` (multiset union reconstructs `L`
exactly) and no command occurs in both results. -/
theorem trim_partition (c : Int) (L : List BSCmd) :
    (Trim_bs_cmds_After_Date c L ++ Trim_bs_cmds_Before_Date c L).Perm L ∧
    ∀ x, x ∈ Trim_bs_cmds_After_Date c L → x ∉ Trim_bs_cmds_Before_Date c L := by
  constructor
  · have e : L.filter (fun x => !decide (x.time < c)) =
        L.filter (fun x => decide (c ≤ x.time)) := by
      apply List.filter_congr
      intro x _
      by_cases hx : x.time < c
      · simp [hx, not_le.mpr hx]
      · simp [hx, not_lt.mp hx]
    have h := List.filter_append_perm (fun x => decide (x.time < c)) L
    rw [e] at h
    exact h
  · intro x hx hy
    simp only [Trim_bs_cmds_After_Date, List.mem_filter, decide_eq_true_eq] at hx
    simp only [Trim_bs_cmds_Before_Date, List.mem_filter, decide_eq_true_eq] at hy
    exact absurd hy.2 (not_le.mpr hx.2)

/-- Witness for C2 at a concrete cutoff and list. -/
theorem trim_partition_witness :
    cAt 1 ∈ Trim_bs_cmds_After_Date 5 [cAt 1, cAt 7] ∧
    cAt 1 ∉ Trim_bs_cmds_Before_Date 5 [cAt 1, cAt 7] :=
  ⟨by decide, (trim_partition 5 [cAt 1, cAt 7]).2 (cAt 1) (by decide)⟩

/-- Embedding of the `scs107_bs_cmds` template attribute (lines 141-202 of
`BackstopHistory.py`): SIMTRANS, two AA00000000 stop-science packets and a
WSPOW00000 power-down, with placeholder dates and times. -/
def scs107_bs_cmds : List BSCmd :=
  [ { cmd := "SIMTRANS", date := "1900:001", msid := none,
      params := [("POS", .i (-99616)), ("SCS", .i 108), ("STEP", .i 1)],
      paramstr := "POS= -99616, SCS= 108, STEP= 1",
      scs := 108, step := 1, time := -1, tlmsid := none, vcdu := 0 },
    { cmd := "ACISPKT", date := "1900:001", msid := none,
      params := [("CMDS", .i 3), ("PACKET(40)", .s "D80000300030603001300"),
                 ("SCS", .i 107), ("STEP", .i 1), ("TLMSID", .s "AA00000000"),
                 ("WORDS", .i 3)],
      paramstr := "TLMSID= AA00000000, CMDS= 3, WORDS= 3, PACKET(40)= D80000300030603001300                   , SCS= 107, STEP= 1",
      scs := 107, step := 1, time := -1, tlmsid := some "AA00000000", vcdu := 0 },
    { cmd := "ACISPKT", date := "1900:001", msid := none,
      params := [("CMDS", .i 3), ("PACKET(40)", .s "D80000300030603001300"),
                 ("SCS", .i 107), ("STEP", .i 2), ("TLMSID", .s "AA00000000"),
                 ("WORDS", .i 3)],
      paramstr := "TLMSID= AA00000000, CMDS= 3, WORDS= 3, PACKET(40)= D80000300030603001300                   , SCS= 107, STEP= 2",
      scs := 107, step := 2, time := -1, tlmsid := some "AA00000000", vcdu := 0 },
    { cmd := "ACISPKT", date := "1900:001", msid := none,
      params := [("CMDS", .i 5), ("PACKET(40)", .s "D8000070007030500200000000000010000"),
                 ("SCS", .i 107), ("STEP", .i 3), ("TLMSID", .s "WSPOW00000"),
                 ("WORDS", .i 7)],
      paramstr := "TLMSID= WSPOW00000, CMDS= 5, WORDS= 7, PACKET(40)= D8000070007030500200000000000010000     , SCS= 107, STEP= 3",
      scs := 107, step := 3, time := -1, tlmsid := some "WSPOW00000", vcdu := 0 } ]

/-- Embedding of the `MAN_bs_cmds` template attribute (lines 212-228):
the MP_TARGQUAT target-attitude command. -/
def MAN_bs_cmds : BSCmd :=
  { cmd := "MP_TARGQUAT", date := "1900:001", msid := none,
    params := [("CMDS", .i 8), ("Q1", .q 1000), ("Q2", .q 2000), ("Q3", .q 3000),
               ("Q4", .q 4000), ("SCS", .i 135), ("STEP", .i 1), ("TLMSID", .s "AOUPTARQ")],
    paramstr := "POS= -99616, SCS= 108, STEP= 1",
    scs := 135, step := 1, time := -1, tlmsid := some "AOUPTARQ", vcdu := 0 }

/-- Embedding of the `AOMANUVR_bs_cmd` template attribute (lines 236-249):
the COMMAND_SW command that initiates a maneuver. -/
def AOMANUVR_bs_cmd : BSCmd :=
  { cmd := "COMMAND_SW", date := "1900:001", msid := some "AOMANUVR",
    params := [("HEX", .i 8034101), ("MSID", .s "AOMANUVR"), ("SCS", .i 135),
               ("STEP", .i 2), ("TLMSID", .s "AOMANUVR")],
    paramstr := "TLMSID= AOMANUVR, HEX= 8034101, MSID= AOMANUVR, SCS= 135, STEP= 1",
    scs := 135, step := 2, time := -1, tlmsid := some "AOMANUVR", vcdu := 0 }

/-- Embedding of the `WSVIDALLDN_bs_cmd` template attribute (lines 256-270). -/
def WSVIDALLDN_bs_cmd : BSCmd :=
  { cmd := "ACISPKT", date := "1900:001", msid := none,
    params := [("CMDS", .i 4), ("PACKET(40)", .s "D800005000506050020000000000"),
               ("SCS", .i 135), ("STEP", .i 3), ("TLMSID", .s "WSVIDALLDN"), ("WORDS", .i 5)],
    paramstr := "TLMSID= WSVIDALLDN, CMDS= 4, WORDS= 5, PACKET(40)=D800005000506050020000000000     , SCS= 135, STEP= 3",
    scs := 135, step := 3, time := -1, tlmsid := some "WSVIDALLDN", vcdu := 0 }

/-- Embedding of the `WSPOW00000_bs_cmd` template attribute (lines 274-288). -/
def WSPOW00000_bs_cmd : BSCmd :=
  { cmd := "ACISPKT", date := "1900:001", msid := none,
    params := [("CMDS", .i 5), ("PACKET(40)", .s "D8000070007030500200000000000010000"),
               ("SCS", .i 135), ("STEP", .i 3), ("TLMSID", .s "WSPOW00000"), ("WORDS", .i 7)],
    paramstr := "TLMSID= WSPOW00000, CMDS= 5, WORDS= 7, PACKET(40)= D8000070007030500200000000000010000     , SCS= 135, STEP= 3",
    scs := 135, step := 3, time := -1, tlmsid := some "WSPOW00000", vcdu := 0 }

/-- Embedding of the `WSPOW0002A_bs_cmd` template attribute (lines 292-306). -/
def WSPOW0002A_bs_cmd : BSCmd :=
  { cmd := "ACISPKT", date := "1900:001", msid := none,
    params := [("CMDS", .i 5), ("PACKET(40)", .s "D80000700073E800020000000000001002A"),
               ("SCS", .i 107), ("STEP", .i 3), ("TLMSID", .s "WSPOW0002A"), ("WORDS", .i 7)],
    paramstr := "TLMSID= WSPOW0002A, CMDS= 5, WORDS= 7, PACKET(40)= D80000700073E800020000000000001002A     , SCS= 107, STEP= 3",
    scs := 107, step := 3, time := -1, tlmsid := some "WSPOW0002A", vcdu := 0 }

/-- Embedding of the `power_cmd_list` attribute (line 117): the recognized
power-state command names. -/
def power_cmd_list : List String := ["WSPOW00000", "WSPOW0002A", "WSVIDALLDN"]

/-- Time-stamping loop shared by `CombineSTOP` (lines 914-919) and
`Combine107` (lines 1083-1087): give each command of the burst the running
base time, then advance the base time by one second. -/
def setTimes (base : Int) : List BSCmd → List BSCmd
  | [] => []
  | c :: cs => { c with time := base, date := secsToDate base } :: setTimes (base + 1) cs

/-- SCS-107 safing burst as inserted by the combination methods: a deep copy
of `scs107_bs_cmds` whose k-th command is stamped `base + k` seconds. -/
def scs107Cmds (base : Int) : List BSCmd := setTimes base scs107_bs_cmds

/-- One row of the `ACIS_specific_dtype` array produced by
`get_ACIS_backstop_cmds`: date, time, command type and packet mnemonic. -/
structure ACISEntry where
  event_date : String
  event_time : Int
  cmd_type : String
  packet_or_cmd : String
deriving Repr, DecidableEq

/-- Embedding of the trimming and cutoff logic of `Process_LTCTI`
(lines 740-777 of `BackstopHistory.py`).  The expanded LTCTI run
(`processRTS` plus `convert_ACIS_RTS_to_ska_parse` applied to the RTS file)
and the ACIS-specific command arrays read from the continuity and review
backstop files are file-derived and passed in as inputs.  Continuity
entries are first trimmed to `event_time ≤ trim_time` (line 744); the review
entries are appended untrimmed (line 752); the first assembled entry that is
a stop science at or after the run start gives the cutoff (lines 756-774). -/
def Process_LTCTI (trim_time : Int) (contAcis revAcis : List ACISEntry)
    (startTime : Int) (expanded : List BSCmd) : List BSCmd :=
  let acis := contAcis.filter (fun e => decide (e.event_time ≤ trim_time)) ++ revAcis
  match acis.find? (fun e => decide (startTime ≤ e.event_time) &&
      (e.packet_or_cmd == "AA00000000")) with
  | none => expanded
  | some e => Trim_bs_cmds_After_Date e.event_time expanded

/-- Embedding of the Python expression `pitch != 0.0` at line 798 of
`BackstopHistory.py`, where `pitch = man_event[2]` is a string token from
the split NLET line: in Python an inequality between a `str` and a `float`
is always true, whatever the operands, so this test never fails. -/
def pyStrNeFloat (s : String) (x : Int) : Bool := true

/-- Update one key of a params dict, as the assignments
`new_maneuver['params']['Q1'] = float(q1)` do. -/
def setParam (ps : List (String × PVal)) (k : String) (v : PVal) : List (String × PVal) :=
  ps.map (fun p => if p.1 == k then (k, v) else p)

/-- Embedding of `Process_MAN` (lines 784-839): the returned list is what the
method appends to the master list.  The quaternions are taken already parsed
(the source calls `float()` on them); the pitch is kept as the raw string
token because the source compares that string against the float `0.0`. -/
def Process_MAN (date : String) (time : Int) (pitch roll : String)
    (q1 q2 q3 q4 : Rat) : List BSCmd :=
  (if pyStrNeFloat pitch 0 then
    [{ MAN_bs_cmds with
        date := date,
        params := setParam (setParam (setParam (setParam MAN_bs_cmds.params
          "Q1" (.q q1)) "Q2" (.q q2)) "Q3" (.q q3)) "Q4" (.q q4),
        time := time,
        paramstr := "TLMSID= AOUPTARQ, CMDS= 8, Q1= " ++ toString q1 ++
          ", Q2= " ++ toString q2 ++ ", Q3= " ++ toString q3 ++
          ", Q4= " ++ toString q4 ++ ", SCS= 1, STEP= 1" }]
   else []) ++
  [{ AOMANUVR_bs_cmd with date := secsToDate (time + 1), time := time + 1 }]

/-- Embedding of `Process_Power_Cmd` (lines 846-872): copy the template
selected by name (any name other than WSVIDALLDN and WSPOW00000 falls into
the final else branch, which copies the WSPOW0002A template) and overwrite
its date and time with the event's. -/
def Process_Power_Cmd (name date : String) (time : Int) : BSCmd :=
  let t := if name == "WSVIDALLDN" then WSVIDALLDN_bs_cmd
           else if name == "WSPOW00000" then WSPOW00000_bs_cmd
           else WSPOW0002A_bs_cmd
  { t with date := date, time := time }

/-- Parsed non-load event line, as dispatched on `splitline[1]` by the
combination methods.  The per-event file-derived data that `Process_LTCTI`
needs (the expanded run and the ACIS-specific backstop arrays) travels with
the event; times are the `DateTime(token).secs` conversions of the date
tokens. -/
inductive NLETEvent where
  | man (date : String) (time : Int) (pitch roll : String) (q1 q2 q3 q4 : Rat)
  | ltcti (date : String) (time : Int) (capNum rtsName numHours : String)
      (expanded : List BSCmd) (contAcis revAcis : List ACISEntry)
  | power (name date : String) (time : Int)
  | other (line : String)
deriving Repr, DecidableEq

/-- Event dispatch loop of `CombineNormal` (lines 554-572) and `CombineTOO`
(lines 649-664): LTCTI events are expanded and trimmed, recognized power
commands are copied in, and everything else (maneuvers included) is printed
as seen-but-not-processed and contributes nothing. -/
def dispatchNormal (trim : Int) : NLETEvent → List BSCmd
  | .ltcti _ t _ _ _ expanded contA revA => Process_LTCTI trim contA revA t expanded
  | .power name date time =>
      if name ∈ power_cmd_list then [Process_Power_Cmd name date time] else []
  | .man _ _ _ _ _ _ _ _ => []
  | .other _ => []

/-- Event dispatch loop of `CombineSTOP` (lines 944-961): like the normal
dispatch but maneuver events are also processed. -/
def dispatchSTOP (trim : Int) : NLETEvent → List BSCmd
  | .man date time pitch roll q1 q2 q3 q4 => Process_MAN date time pitch roll q1 q2 q3 q4
  | .ltcti _ t _ _ _ expanded contA revA => Process_LTCTI trim contA revA t expanded
  | .power name date time =>
      if name ∈ power_cmd_list then [Process_Power_Cmd name date time] else []
  | .other _ => []

/-- Embedding of `CombineNormal` (lines 489-583): concatenate continuity and
review loads, sort, append the commands synthesized for each event found in
the scanned window, and sort again.  The review list must have a first
command (line 529 indexes `rev_bs_cmds[0]`); `none` models the IndexError
raised otherwise.  The event list is the result of the
`Find_Events_Between_Dates` file scan, taken as an input. -/
def CombineNormal (cont_bs_cmds rev_bs_cmds : List BSCmd)
    (events : List NLETEvent) : Option (List BSCmd) :=
  match rev_bs_cmds with
  | [] => none
  | r0 :: _ =>
    let master := sortByTime (cont_bs_cmds ++ rev_bs_cmds)
    let master := master ++ (events.map (dispatchNormal r0.time)).flatten
    some (sortByTime master)

/-- Embedding of `CombineTOO` (lines 593-672): keep the continuity commands
whose time is at or before the review load's first-command time, append the
full review load, sort, append the event commands, and sort again. -/
def CombineTOO (cont_bs_cmds rev_bs_cmds : List BSCmd)
    (events : List NLETEvent) : Option (List BSCmd) :=
  match rev_bs_cmds with
  | [] => none
  | r0 :: _ =>
    let master := cont_bs_cmds.filter (fun cmd => decide (cmd.time ≤ r0.time))
    let master := sortByTime (master ++ rev_bs_cmds)
    let master := master ++ (events.map (dispatchNormal r0.time)).flatten
    some (sortByTime master)

/-- Embedding of `CombineSTOP` (lines 882-990): trim the continuity load
strictly before the shutdown time, append the SCS-107 safing burst stamped
from the shutdown time (`base_time = self.STOP_time`, line 910), append the
event commands, concatenate the review load and sort. -/
def CombineSTOP (cont_bs_cmds rev_bs_cmds : List BSCmd) (stop_time : Int)
    (events : List NLETEvent) : Option (List BSCmd) :=
  match rev_bs_cmds with
  | [] => none
  | _ :: _ =>
    let master := cont_bs_cmds.filter (fun cmd => decide (cmd.time < stop_time))
    let master := master ++ scs107Cmds stop_time
    let master := master ++ (events.map (dispatchSTOP stop_time)).flatten
    some (sortByTime (master ++ rev_bs_cmds))

/-- Embedding of `Combine107` (lines 1001-1175): trim the continuity load
strictly before the SCS-107 time, remember the last kept command as the
vehicle-only cut point (line 1069 indexes `master_list[-1]`, so `none`
models the IndexError when the trim leaves nothing), append the safing burst
stamped from `self.S107_time + 1` (line 1080), append the event commands,
append the vehicle-only load trimmed to the window from the cut point to the
review start, concatenate the review load and sort. -/
def Combine107 (cont_bs_cmds vo_bs_cmds rev_bs_cmds : List BSCmd)
    (s107_time : Int) (events : List NLETEvent) : Option (List BSCmd) :=
  match rev_bs_cmds with
  | [] => none
  | r0 :: _ =>
    let master := cont_bs_cmds.filter (fun cmd => decide (cmd.time < s107_time))
    match master.getLast? with
    | none => none
    | some lastKept =>
      let master := master ++ scs107Cmds (s107_time + 1)
      let master := master ++ (events.map (dispatchNormal s107_time)).flatten
      let voTrimmed := Trim_bs_cmds_Before_Date lastKept.time vo_bs_cmds
      let voTrimmed := Trim_bs_cmds_After_Date r0.time voTrimmed
      let master := master ++ voTrimmed
      some (sortByTime (master ++ rev_bs_cmds))

/-- Sortedness of the embedded Python sort: helper shared by several claims. -/
theorem sortByTime_sorted (l : List BSCmd) : List.Sorted timeLEr (sortByTime l) :=
  List.sorted_insertionSort timeLEr l

/-- Permutation property of the embedded Python sort: helper shared by
several claims. -/
theorem sortByTime_perm (l : List BSCmd) : (sortByTime l).Perm l :=
  List.perm_insertionSort timeLEr l

/-- C1: for every combination scenario and all non-empty input command lists,
the master list returned by the call is sorted non-decreasing by the `time`
field of its records (whenever the call returns at all, i.e. does not raise). -/
theorem combine_output_sorted (cont vo rev : List BSCmd) (t : Int)
    (events : List NLETEvent) :
    (∀ out, CombineNormal cont rev events = some out → List.Sorted timeLEr out) ∧
    (∀ out, CombineTOO cont rev events = some out → List.Sorted timeLEr out) ∧
    (∀ out, CombineSTOP cont rev t events = some out → List.Sorted timeLEr out) ∧
    (∀ out, Combine107 cont vo rev t events = some out → List.Sorted timeLEr out) := by
  refine ⟨fun out h => ?_, fun out h => ?_, fun out h => ?_, fun out h => ?_⟩
  · simp only [CombineNormal] at h
    split at h
    · exact Option.noConfusion h
    · cases h; exact sortByTime_sorted _
  · simp only [CombineTOO] at h
    split at h
    · exact Option.noConfusion h
    · cases h; exact sortByTime_sorted _
  · simp only [CombineSTOP] at h
    split at h
    · exact Option.noConfusion h
    · cases h; exact sortByTime_sorted _
  · simp only [Combine107] at h
    split at h
    · exact Option.noConfusion h
    · split at h
      · exact Option.noConfusion h
      · cases h; exact sortByTime_sorted _

/-- Witness for C1 at a concrete one-command pair of loads. -/
theorem combine_output_sorted_witness : List.Sorted timeLEr [cAt 0, cAt 7] :=
  (combine_output_sorted [cAt 7] [] [cAt 0] 0 []).1 [cAt 0, cAt 7] (by decide)

/-- C4: in the TOO scenario exactly the predecessor commands whose time is at
or before the continuation load's first-command time are kept, the full
continuation and event commands are appended, and the result is sorted; on
the spec's concrete example (predecessor commands at 90, 95, 99 and a
continuation at 96, 101 with no events) the output command times are
[90, 95, 96, 101]. -/
theorem combineTOO_cut (cont : List BSCmd) (r0 : BSCmd) (rest : List BSCmd)
    (events : List NLETEvent) :
    (∀ out, CombineTOO cont (r0 :: rest) events = some out →
      out.Perm (cont.filter (fun c => decide (c.time ≤ r0.time)) ++ (r0 :: rest) ++
        (events.map (dispatchNormal r0.time)).flatten) ∧
      List.Sorted timeLEr out) ∧
    (CombineTOO [cAt 90, cAt 95, cAt 99] [cAt 96, cAt 101] []).map
        (List.map (fun c => c.time)) = some [90, 95, 96, 101] := by
  constructor
  · intro out h
    simp only [CombineTOO] at h
    injection h with h
    constructor
    · rw [← h]
      exact (sortByTime_perm _).trans ((sortByTime_perm _).append_right _)
    · rw [← h]; exact sortByTime_sorted _
  · decide

/-- Witness for C4 at the spec's example input. -/
theorem combineTOO_cut_witness :
    ([cAt 90, cAt 95, cAt 96, cAt 101] : List BSCmd).Perm
      (([cAt 90, cAt 95, cAt 99].filter (fun c => decide (c.time ≤ (cAt 96).time))) ++
        ([cAt 96] ++ [cAt 101]) ++
        (([] : List NLETEvent).map (dispatchNormal (cAt 96).time)).flatten) :=
  ((combineTOO_cut [cAt 90, cAt 95, cAt 99] (cAt 96) [cAt 101] []).1
    [cAt 90, cAt 95, cAt 96, cAt 101] (by decide)).1

/-- Times of the stamped SCS-107 safing burst: helper shared by several claims. -/
theorem scs107Cmds_map_time (t : Int) :
    (scs107Cmds t).map (fun c => c.time) = [t, t + 1, t + 2, t + 3] := by
  simp only [scs107Cmds, scs107_bs_cmds, setTimes, List.map]
  norm_num
  constructor
  · ring
  · ring

/-- Strict intra-burst ordering of the stamped safing burst: helper shared by
several claims. -/
theorem scs107Cmds_chain (t : Int) :
    ((scs107Cmds t).map (fun c => c.time)).Chain' (fun a b => a < b) := by
  rw [scs107Cmds_map_time]
  refine List.Chain'.cons ?_ (List.Chain'.cons ?_ (List.Chain'.cons ?_ (List.chain'_singleton _))) <;>
    linarith

/-- C3: whenever `CombineSTOP` returns, its output is a permutation of the
continuity load trimmed strictly before the shutdown time together with the
stamped safing burst, the event commands and the review load; hence every
occurrence of a command with time at or after the shutdown time is accounted
for by the non-predecessor sources.  The four synthesized safing commands all
appear in the output, their timestamps are exactly shutdown+0..3 seconds
(strictly increasing, the first no earlier than the shutdown time). -/
theorem combineSTOP_shutdown (cont : List BSCmd) (r0 : BSCmd) (rest : List BSCmd)
    (stop : Int) (events : List NLETEvent) (out : List BSCmd)
    (h : CombineSTOP cont (r0 :: rest) stop events = some out) :
    out.Perm (cont.filter (fun c => decide (c.time < stop)) ++ scs107Cmds stop ++
      (events.map (dispatchSTOP stop)).flatten ++ (r0 :: rest)) ∧
    (∀ c : BSCmd, stop ≤ c.time →
      out.count c = (scs107Cmds stop ++ (events.map (dispatchSTOP stop)).flatten ++
        (r0 :: rest)).count c) ∧
    (∀ c ∈ scs107Cmds stop, c ∈ out) ∧
    (scs107Cmds stop).map (fun c => (c.cmd, c.tlmsid)) =
      [("SIMTRANS", none), ("ACISPKT", some "AA00000000"), ("ACISPKT", some "AA00000000"),
        ("ACISPKT", some "WSPOW00000")] ∧
    (scs107Cmds stop).map (fun c => c.time) = [stop, stop + 1, stop + 2, stop + 3] ∧
    ((scs107Cmds stop).map (fun c => c.time)).Chain' (fun a b => a < b) := by
  simp only [CombineSTOP] at h
  cases h
  have hperm : (sortByTime (cont.filter (fun c => decide (c.time < stop)) ++ scs107Cmds stop ++
      (events.map (dispatchSTOP stop)).flatten ++ (r0 :: rest))).Perm
      (cont.filter (fun c => decide (c.time < stop)) ++ scs107Cmds stop ++
        (events.map (dispatchSTOP stop)).flatten ++ (r0 :: rest)) := sortByTime_perm _
  refine ⟨hperm, ?_, ?_, rfl, scs107Cmds_map_time stop, scs107Cmds_chain stop⟩
  · intro c hc
    rw [hperm.count_eq]
    rw [List.append_assoc, List.append_assoc, List.count_append, ← List.append_assoc]
    have hz : (cont.filter (fun c => decide (c.time < stop))).count c = 0 := by
      rw [List.count_eq_zero]
      intro hmem
      rw [List.mem_filter, decide_eq_true_eq] at hmem
      exact absurd hmem.2 (not_lt.mpr hc)
    rw [hz]
    ring
  · intro c hc
    rw [hperm.mem_iff]
    rw [List.mem_append, List.mem_append, List.mem_append]
    exact Or.inl (Or.inl (Or.inr hc))

/-- Witness for C3: with continuity commands at 90 and 150, a review command
at 200 and shutdown at 100, the dropped continuity command at 150 does not
occur in the output. -/
theorem combineSTOP_shutdown_witness :
    List.count (cAt 150) ((CombineSTOP [cAt 90, cAt 150] [cAt 200] 100 []).getD []) =
      List.count (cAt 150) (scs107Cmds 100 ++
        (([] : List NLETEvent).map (dispatchSTOP 100)).flatten ++ [cAt 200]) :=
  (combineSTOP_shutdown [cAt 90, cAt 150] (cAt 200) [] 100 []
      ((CombineSTOP [cAt 90, cAt 150] [cAt 200] 100 []).getD []) (by decide)).2.1
    (cAt 150) (by decide)

/-- Counterexample for C6: with a continuity command at 90, a review command
at 200 and trigger time 100, `Combine107` places the four synthesized safing
commands at 101, 102, 103, 104 — the output contains no command at the
trigger time 100, so the first safing command is not at `t` and the k-th is
not at `t + k` as the claim states for both scenarios. -/
theorem combine107_safing_base_counterexample :
    ((Combine107 [cAt 90] [] [cAt 200] 100 []).getD []).map (fun c => c.time) =
      [90, 101, 102, 103, 104, 200] ∧
    (scs107Cmds (100 + 1)).map (fun c => c.time) = [101, 102, 103, 104] ∧
    ([101, 102, 103, 104] : List Int) ≠ [100, 101, 102, 103] := by
  refine ⟨by decide, by decide, by decide⟩

/-- C6 as amended: the stamped safing burst `scs107Cmds base` has timestamps
`base + k` for k = 0..3 (per-step delay of one second, strictly increasing);
`CombineSTOP` inserts it with `base` equal to the shutdown time `t` (first
command at `t` exactly), while `Combine107` inserts it with `base = t + 1`
(first command one second after the trigger time). -/
theorem safing_burst_times (t : Int) (cont vo rev : List BSCmd)
    (events : List NLETEvent) (out : List BSCmd) :
    ((scs107Cmds t).map (fun c => c.time) = [t, t + 1, t + 2, t + 3]) ∧
    (((scs107Cmds t).map (fun c => c.time)).Chain' (fun a b => a < b)) ∧
    (CombineSTOP cont rev t events = some out → ∀ c ∈ scs107Cmds t, c ∈ out) ∧
    (Combine107 cont vo rev t events = some out → ∀ c ∈ scs107Cmds (t + 1), c ∈ out) := by
  refine ⟨scs107Cmds_map_time t, scs107Cmds_chain t, ?_, ?_⟩
  · intro h c hc
    simp only [CombineSTOP] at h
    split at h
    · exact Option.noConfusion h
    · cases h
      rw [(sortByTime_perm _).mem_iff]
      simp only [List.mem_append]
      exact Or.inl (Or.inl (Or.inr hc))
  · intro h c hc
    simp only [Combine107] at h
    split at h
    · exact Option.noConfusion h
    · split at h
      · exact Option.noConfusion h
      · cases h
        rw [(sortByTime_perm _).mem_iff]
        simp only [List.mem_append]
        exact Or.inl (Or.inl (Or.inl (Or.inr hc)))

/-- Witness for the amended C6 at concrete loads: the stamped SIMTRANS
command is found in the outputs of both scenarios at the stated base times. -/
theorem safing_burst_times_witness :
    ((scs107Cmds 100).getD 0 (cAt 0)) ∈ (CombineSTOP [cAt 90] [cAt 200] 100 []).getD [] ∧
    ((scs107Cmds 101).getD 0 (cAt 0)) ∈ (Combine107 [cAt 90] [] [cAt 200] 100 []).getD [] :=
  ⟨(safing_burst_times 100 [cAt 90] [] [cAt 200] []
      ((CombineSTOP [cAt 90] [cAt 200] 100 []).getD [])).2.2.1 (by decide)
      ((scs107Cmds 100).getD 0 (cAt 0)) (by decide),
   (safing_burst_times 100 [cAt 90] [] [cAt 200] []
      ((Combine107 [cAt 90] [] [cAt 200] 100 []).getD [])).2.2.2 (by decide)
      ((scs107Cmds 101).getD 0 (cAt 0)) (by decide)⟩

/-- C5 as amended: during LTCTI insertion, if the assembled ACIS-specific command set
(continuity entries trimmed to the trim time plus the continuation load's
entries) contains no stop-science AA00000000 command at or after the run's
start time, the expanded run is kept in full; otherwise, with `e` the first
such stop-science entry, exactly the expanded commands whose timestamp is
strictly before `e`'s time survive — every expanded command at or after it
is dropped. -/
theorem process_LTCTI_cutoff (trim : Int) (contAcis revAcis : List ACISEntry)
    (start : Int) (expanded : List BSCmd) :
    ((∀ e ∈ contAcis.filter (fun e => decide (e.event_time ≤ trim)) ++ revAcis,
        start ≤ e.event_time → e.packet_or_cmd ≠ "AA00000000") →
      Process_LTCTI trim contAcis revAcis start expanded = expanded) ∧
    (∀ e, (contAcis.filter (fun e => decide (e.event_time ≤ trim)) ++ revAcis).find?
          (fun e => decide (start ≤ e.event_time) && (e.packet_or_cmd == "AA00000000")) =
            some e →
      start ≤ e.event_time ∧ e.packet_or_cmd = "AA00000000" ∧
      Process_LTCTI trim contAcis revAcis start expanded =
        expanded.filter (fun c => decide (c.time < e.event_time))) := by
  constructor
  · intro hnone
    have hfind : (contAcis.filter (fun e => decide (e.event_time ≤ trim)) ++ revAcis).find?
        (fun e => decide (start ≤ e.event_time) && (e.packet_or_cmd == "AA00000000")) =
          none := by
      rw [List.find?_eq_none]
      intro x hx
      simp only [Bool.and_eq_true, decide_eq_true_eq, beq_iff_eq, not_and]
      exact hnone x hx
    simp only [Process_LTCTI]
    rw [hfind]
  · intro e he
    have hp := List.find?_some he
    simp only [Bool.and_eq_true, decide_eq_true_eq, beq_iff_eq] at hp
    refine ⟨hp.1, hp.2, ?_⟩
    simp only [Process_LTCTI]
    rw [he]
    rfl

/-- Witness for C5: a continuation load containing a stop science at time 50
cuts an expanded run with commands at 40 and 60 down to the command at 40. -/
theorem process_LTCTI_cutoff_witness :
    (10 : Int) ≤ 50 ∧ "AA00000000" = "AA00000000" ∧
    Process_LTCTI 1000 [] [⟨"d", 50, "ACISPKT", "AA00000000"⟩] 10 [cAt 40, cAt 60] =
      [cAt 40, cAt 60].filter (fun c => decide (c.time < (50 : Int))) :=
  (process_LTCTI_cutoff 1000 [] [⟨"d", 50, "ACISPKT", "AA00000000"⟩] 10
    [cAt 40, cAt 60]).2 ⟨"d", 50, "ACISPKT", "AA00000000"⟩ (by decide)

/-- Counterexample for C5 as originally stated: the continuation (review)
load's ACIS entries hold no stop-science command at all — its only entry is
an OORMPDS perigee indicator — yet the expanded run (commands at 400 and
600) is not appended in full: the trimmed continuity contributes a
stop-science AA00000000 at time 500 (at or after the run start 10 and within
the trim time 1000), the assembled-set search of lines 740-757 selects it,
and the run is cut to the single command at 400. -/
theorem process_LTCTI_continuity_cut_counterexample :
    ([⟨"d2", 700, "COMMAND_SW", "OORMPDS"⟩] : List ACISEntry).find?
        (fun e => decide ((10 : Int) ≤ e.event_time) && (e.packet_or_cmd == "AA00000000")) =
      none ∧
    Process_LTCTI 1000 [⟨"d", 500, "ACISPKT", "AA00000000"⟩]
        [⟨"d2", 700, "COMMAND_SW", "OORMPDS"⟩] 10 [cAt 400, cAt 600] = [cAt 400] ∧
    ([cAt 400] : List BSCmd) ≠ [cAt 400, cAt 600] := by
  refine ⟨by decide, by decide, by decide⟩

/-- Counterexample for C7: an event naming the power command WSPOW0CF3F,
which is not one of the recognized names, does not make the combination call
fail — `CombineNormal` still returns a master list, and the event is simply
skipped, contributing no command. -/
theorem power_cmd_unrecognized_counterexample :
    CombineNormal [cAt 90] [cAt 200] [.power "WSPOW0CF3F" "2020:238:02:48:00" 150] =
      some [cAt 90, cAt 200] ∧
    dispatchNormal 200 (.power "WSPOW0CF3F" "2020:238:02:48:00" 150) = [] := by
  exact ⟨by decide, by decide⟩

/-- C7 as amended: an event whose power-command name is not recognized is
logged and skipped — no command is appended and no exception is raised (the
combination call still returns); for each recognized name the dispatch
appends exactly one command copied from the matching template with the
event's date and time. -/
theorem power_cmd_dispatch (name date : String) (time trim : Int) :
    (name ∉ power_cmd_list → dispatchNormal trim (.power name date time) = []) ∧
    (name ∈ power_cmd_list → dispatchNormal trim (.power name date time) =
      [Process_Power_Cmd name date time]) ∧
    (Process_Power_Cmd "WSVIDALLDN" date time =
      { WSVIDALLDN_bs_cmd with date := date, time := time }) ∧
    (Process_Power_Cmd "WSPOW00000" date time =
      { WSPOW00000_bs_cmd with date := date, time := time }) ∧
    (Process_Power_Cmd "WSPOW0002A" date time =
      { WSPOW0002A_bs_cmd with date := date, time := time }) ∧
    (∀ (cont rest : List BSCmd) (r0 : BSCmd) (events : List NLETEvent),
      CombineNormal cont (r0 :: rest) events ≠ none) := by
  refine ⟨?_, ?_, ?_, ?_, ?_, ?_⟩
  · intro hnot
    simp only [dispatchNormal, if_neg hnot]
  · intro hmem
    simp only [dispatchNormal, if_pos hmem]
  · simp [Process_Power_Cmd]
  · simp [Process_Power_Cmd]
  · simp [Process_Power_Cmd]
  · intro cont rest r0 events
    simp [CombineNormal]

/-- Witness for the amended C7 at concrete names. -/
theorem power_cmd_dispatch_witness :
    dispatchNormal 0 (.power "WSPOW0CF3F" "d" 150) = [] ∧
    dispatchNormal 0 (.power "WSVIDALLDN" "d" 150) =
      [Process_Power_Cmd "WSVIDALLDN" "d" 150] :=
  ⟨(power_cmd_dispatch "WSPOW0CF3F" "d" 150 0).1 (by decide),
   (power_cmd_dispatch "WSVIDALLDN" "d" 150 0).2.1 (by decide)⟩

/-- C8 evaluated at the failing input: a maneuver event whose pitch token is
the string 0.0 still yields the MP_TARGQUAT target-attitude command (at the
event time) ahead of the AOMANUVR initiation command at event time plus one
second, because the source compares the string-valued pitch against the
float `0.0` — a comparison that can never be equal in Python — so the
zero-pitch warning branch is unreachable and the claimed only-if-non-zero
behavior never happens. -/
theorem process_MAN_zero_pitch_eval :
    (Process_MAN "2020:001:00:00:00" 100 "0.0" "90.0" 1 2 3 4).map
        (fun c => (c.cmd, c.time)) =
      [("MP_TARGQUAT", 100), ("COMMAND_SW", 101)] ∧
    pyStrNeFloat "0.0" 0 = true := by
  exact ⟨by decide, by decide⟩

/-- Comment test of the NLET scan (line 1441 of `BackstopHistory.py`): the
first character of the line is the hash sign.  The source reads lines with
their trailing newline, so the line the code sees is never empty; in this
embedding lines carry no newline and the blank line is the empty string,
whose first character (the newline, in the source) is likewise not a hash. -/
def isComment (line : String) : Bool :=
  match line.data with
  | [] => false
  | c :: _ => c = '#'

/-- Whitespace tokenizer helper: accumulate the current token (reversed)
while walking the characters. -/
def splitWSAux : List Char → List Char → List String
  | [], acc => if acc = [] then [] else [String.mk acc.reverse]
  | c :: cs, acc =>
      if c = ' ' ∨ c = '\t' ∨ c = '\n' ∨ c = '\r' then
        (if acc = [] then splitWSAux cs [] else String.mk acc.reverse :: splitWSAux cs [])
      else splitWSAux cs (c :: acc)

/-- Embedding of Python's `str.split()` with no argument: split on runs of
whitespace, producing no empty tokens. -/
def splitWS (line : String) : List String := splitWSAux line.data []

/-- Embedding of `Find_Events_Between_Dates` (lines 1406-1467 of
`BackstopHistory.py`) over the NLET file contents, given as the list of its
lines (without trailing newlines) and the external `DateTime` parser, given
as a function returning `none` where the parser would raise.  Comment lines
are skipped; a non-comment line is split on whitespace and `splitline[0]` is
read — an `IndexError` (modelled as `Except.error`) if the line is blank;
the GO sentinel is skipped; any other first token is parsed as a time and
the line is kept when that time is strictly between the bounds. -/
def Find_Events_Between_Dates (parseSecs : String → Option Int) (tstart tstop : Int) :
    List String → Except String (List String)
  | [] => .ok []
  | line :: rest =>
    if isComment line then Find_Events_Between_Dates parseSecs tstart tstop rest
    else
      match splitWS line with
      | [] => .error "IndexError"
      | tok :: _ =>
        if tok == "GO" then Find_Events_Between_Dates parseSecs tstart tstop rest
        else
          match parseSecs tok with
          | none => .error "DateTime ValueError"
          | some t =>
            match Find_Events_Between_Dates parseSecs tstart tstop rest with
            | .error m => .error m
            | .ok es => .ok (if tstart < t ∧ t < tstop then line :: es else es)

/-- Keep-predicate of the NLET scan: a line survives when it is not a
comment, not the GO sentinel, and its first token parses to a time strictly
between the bounds. -/
def keepLine (parseSecs : String → Option Int) (tstart tstop : Int) (line : String) : Bool :=
  if isComment line then false
  else match splitWS line with
    | [] => false
    | tok :: _ =>
      if tok == "GO" then false
      else match parseSecs tok with
        | none => false
        | some t => decide (tstart < t) && decide (t < tstop)

/-- Scan-safety of one NLET line: comments always pass; a non-comment line
must be non-blank and, unless it is the GO sentinel, its first token must
parse. -/
def lineParses (parseSecs : String → Option Int) (line : String) : Bool :=
  if isComment line then true
  else match splitWS line with
    | [] => false
    | tok :: _ => if tok == "GO" then true else (parseSecs tok).isSome

/-- Counterexample for C9: a blank non-comment line makes the scan raise an
IndexError at `splitline[0]` instead of being skipped — the scan does not
run to completion on every file content. -/
theorem find_events_blank_line_counterexample :
    Find_Events_Between_Dates (fun _ => some 5) 0 10 [""] = .error "IndexError" := rfl

/-- C9 as amended: comment lines and the GO sentinel are skipped, and when
every non-comment line is non-blank with a parseable first token, the scan
completes without raising and returns exactly the non-comment, non-sentinel
lines whose timestamp lies strictly between the two bounds; a blank line or
an unparseable first token raises instead (and a missing log file is a fatal
error surfaced to the caller). -/
theorem find_events_scan (parseSecs : String → Option Int) (tstart tstop : Int)
    (lines : List String) (hok : ∀ line ∈ lines, lineParses parseSecs line = true) :
    Find_Events_Between_Dates parseSecs tstart tstop lines =
      .ok (lines.filter (keepLine parseSecs tstart tstop)) := by
  induction lines with
  | nil => rfl
  | cons a rest ih =>
    have ha := hok a (List.mem_cons_self a rest)
    have hrest : ∀ line ∈ rest, lineParses parseSecs line = true :=
      fun line hl => hok line (List.mem_cons_of_mem a hl)
    have hih := ih hrest
    simp only [lineParses] at ha
    simp only [Find_Events_Between_Dates, List.filter_cons, keepLine]
    split
    · next hc => simp [hc, hih]
    · next hc =>
      have hc2 : isComment a = false := by rwa [Bool.not_eq_true] at hc
      simp only [hc2, Bool.false_eq_true, if_false] at ha
      split
      · next hsplit => rw [hsplit] at ha; simp at ha
      · next tok toks hsplit =>
        rw [hsplit] at ha
        have ha2 : (if (tok == "GO") = true then true else (parseSecs tok).isSome) = true := ha
        split
        · next hgo => simp [hih]
        · next hgo =>
          have hgo2 : (tok == "GO") = false := by rwa [Bool.not_eq_true] at hgo
          simp only [hgo2, Bool.false_eq_true, if_false] at ha2
          split
          · next hparse => rw [hparse] at ha2; simp at ha2
          · next t hparse =>
            rw [hih]
            simp [Bool.and_eq_true, decide_eq_true_eq]

/-- Witness for the amended C9 on a concrete five-line file. -/
theorem find_events_scan_witness :
    Find_Events_Between_Dates
        (fun tok => if tok = "100" then some 100 else if tok = "300" then some 300
          else if tok = "2000" then some 2000 else none) 0 1000
        ["# comment", "GO", "100 LTCTI 1527 1_4_CTI 000:16:00:00", "300 MAN 90 0 1 2 3 4",
          "2000 TOO"] =
      .ok (["# comment", "GO", "100 LTCTI 1527 1_4_CTI 000:16:00:00", "300 MAN 90 0 1 2 3 4",
          "2000 TOO"].filter
        (keepLine (fun tok => if tok = "100" then some 100 else if tok = "300" then some 300
          else if tok = "2000" then some 2000 else none) 0 1000)) :=
  find_events_scan
    (fun tok => if tok = "100" then some 100 else if tok = "300" then some 300
      else if tok = "2000" then some 2000 else none) 0 1000
    ["# comment", "GO", "100 LTCTI 1527 1_4_CTI 000:16:00:00", "300 MAN 90 0 1 2 3 4",
      "2000 TOO"] (by decide)

/-- Embedding of `LTCTI_RTS.convert_RTS_DELTA_to_secs` (lines 183-216 of
`LTCTI_RTS.py`): the colon-separated components (days, hours, minutes,
seconds, already parsed to numbers) are multiplied pairwise with the unit
conversions 86400, 3600, 60, 1 and summed. -/
def convert_RTS_DELTA_to_secs (parts : List Int) : Int :=
  ((parts.zip [86400, 3600, 60, 1]).map (fun p => p.1 * p.2)).sum

/-- Delay token carried by one RTS line: either the symbolic string
&NUM_HOURS& or a literal hh:mm:ss value (components already parsed). -/
inductive DeltaTok where
  | numHours
  | lit (parts : List Int)
deriving Repr, DecidableEq

/-- One non-comment, non-blank line of an RTS script as parsed by
`processRTS`: its statement (/CMD or ACIS or neither), its mnemonic, and its
optional DELTA token. -/
structure RTSLine where
  statement : Option String
  mnemonic : String
  delta : Option DeltaTok
deriving Repr, DecidableEq

/-- One row of the array built by `processRTS`: the date and time stamped on
the line, the statement and mnemonic copied over, and the applied delta. -/
structure RTSEntry where
  date : String
  time : Int
  statement : Option String
  mnemonic : String
  delta : Int
deriving Repr, DecidableEq

/-- Delay of one RTS line (lines 333-350 of `LTCTI_RTS.py`): 0 when the line
carries no DELTA token; the full run duration `cti_duration_secs` when the
token is the symbolic &NUM_HOURS&; otherwise the literal value converted
with a prepended 000: days field. -/
def deltaSecs (ctiDur : Int) : Option DeltaTok → Int
  | none => 0
  | some .numHours => ctiDur
  | some (.lit parts) => convert_RTS_DELTA_to_secs (0 :: parts)

/-- Line-processing loop of `processRTS` (lines 294-387 of `LTCTI_RTS.py`):
walk the lines keeping a running `present_time`; advance it by the line's
delay and stamp the line with the advanced time (a line without a DELTA
keeps the previous time, its delay being 0). -/
def processRTSAux (ctiDur presentTime : Int) : List RTSLine → List RTSEntry
  | [] => []
  | l :: ls =>
    let dt := deltaSecs ctiDur l.delta
    let t := presentTime + dt
    { date := secsToDate t, time := t, statement := l.statement,
      mnemonic := l.mnemonic, delta := dt } :: processRTSAux ctiDur t ls

/-- Embedding of `LTCTI_RTS.processRTS`: the run duration is NUM_HOURS
converted to seconds, the cursor starts at the RTS start time, and the
parsed lines of the RTS file (a file outside this repository, taken as
input) are stamped in order. -/
def processRTS (numHours : List Int) (startTime : Int) (lines : List RTSLine) : List RTSEntry :=
  processRTSAux (convert_RTS_DELTA_to_secs numHours) startTime lines

/-- Time stamped on the i-th processed line: cursor before the line plus the
line's own delay.  Helper for the C10 theorem. -/
theorem processRTSAux_time (ctiDur : Int) (lines : List RTSLine) :
    ∀ (present : Int) (i : Nat) (l : RTSLine), lines[i]? = some l →
      ((processRTSAux ctiDur present lines)[i]?).map (fun en => en.time) =
        some ((present + (((lines.take i).map (fun x => deltaSecs ctiDur x.delta)).sum))
          + deltaSecs ctiDur l.delta) := by
  induction lines with
  | nil => intro present i l h; simp at h
  | cons a as ih =>
    intro present i l h
    cases i with
    | zero =>
      simp only [List.getElem?_cons_zero, Option.some_inj] at h
      subst h
      simp [processRTSAux]
    | succ n =>
      simp only [List.getElem?_cons_succ] at h
      simp only [processRTSAux, List.getElem?_cons_succ, List.take_succ_cons, List.map_cons,
        List.sum_cons]
      rw [ih (present + deltaSecs ctiDur a.delta) n l h]
      congr 1
      ring

/-- C10: during RTS expansion each script step's absolute time equals the
running time cursor (the start time plus the delays of all earlier steps)
plus that step's own delay; the delay is 0 when the line carries no DELTA
token, and a DELTA token holding the symbolic &NUM_HOURS& string resolves to
the run's total planned duration, NUM_HOURS converted to seconds. -/
theorem processRTS_step_times (numHours : List Int) (start : Int) (lines : List RTSLine)
    (i : Nat) (l : RTSLine) (hl : lines[i]? = some l) :
    (((processRTS numHours start lines)[i]?).map (fun en => en.time) =
      some ((start + (((lines.take i).map (fun x =>
          deltaSecs (convert_RTS_DELTA_to_secs numHours) x.delta)).sum))
        + deltaSecs (convert_RTS_DELTA_to_secs numHours) l.delta)) ∧
    deltaSecs (convert_RTS_DELTA_to_secs numHours) none = 0 ∧
    deltaSecs (convert_RTS_DELTA_to_secs numHours) (some .numHours) =
      convert_RTS_DELTA_to_secs numHours :=
  ⟨processRTSAux_time (convert_RTS_DELTA_to_secs numHours) lines start i l hl, rfl, rfl⟩

/-- Witness for C10 on a three-line script with a one-second literal delay,
a delay-free line and a symbolic &NUM_HOURS& delay, for a 16-hour run. -/
theorem processRTS_step_times_witness :
    ((processRTS [0, 16, 0, 0] 1000
        [⟨some "ACIS", "WSPOW0CF3F", some (.lit [0, 0, 1])⟩,
         ⟨some "/CMD", "OORMPEN", none⟩,
         ⟨some "ACIS", "AA00000000", some .numHours⟩])[2]?).map (fun en => en.time) =
      some ((1000 + ((([⟨some "ACIS", "WSPOW0CF3F", some (.lit [0, 0, 1])⟩,
         ⟨some "/CMD", "OORMPEN", none⟩,
         (⟨some "ACIS", "AA00000000", some .numHours⟩ : RTSLine)].take 2).map (fun x =>
          deltaSecs (convert_RTS_DELTA_to_secs [0, 16, 0, 0]) x.delta)).sum))
        + deltaSecs (convert_RTS_DELTA_to_secs [0, 16, 0, 0])
            (⟨some "ACIS", "AA00000000", some .numHours⟩ : RTSLine).delta) :=
  (processRTS_step_times [0, 16, 0, 0] 1000
    [⟨some "ACIS", "WSPOW0CF3F", some (.lit [0, 0, 1])⟩,
     ⟨some "/CMD", "OORMPEN", none⟩,
     ⟨some "ACIS", "AA00000000", some .numHours⟩] 2
    ⟨some "ACIS", "AA00000000", some .numHours⟩ (by decide)).1
